import Mathlib

/-!
Verification development for the `ghost-utills` Go library
(`pkg/ghost-utils/GhostConfig.go`), a configuration-and-bootstrap helper:
it loads a YAML project descriptor into a `GhostConfig` struct, connects to
a SurrealDB endpoint (connect, sign in, select namespace/database), and
registers template/static paths on a gin HTTP engine.

The embedding is shallow:
* machine state that the Go code only passes through (the file system, the
  remote database, the gin engine) is modelled explicitly: the file system
  as a partial map from paths to file contents, the remote database and the
  HTTP engine as an oracle `World` plus a trace of emitted `Event`s;
* Go's `(T, error)` return shape becomes `T × Option e`;
* `yaml.Unmarshal` into the tagged `GhostConfig` struct is modelled by a
  structural decoder over YAML mapping values, keyed by the struct's yaml
  tags, with Go zero-values for absent keys and unknown keys ignored,
  exactly as `gopkg.in/yaml.v3` behaves on this struct.
-/

/-- The nested `SurrealDB` section of `GhostConfig`
(yaml tags `surrealdb-url`, `surrealdb-username`, `surrealdb-password`,
`surrealdb-database`, `surrealdb-namespace`). -/
structure SurrealSection where
  URL : String
  Username : String
  Password : String
  Database : String
  Namespace : String
deriving DecidableEq, Repr

/-- The nested `TailwindCSS` section of `GhostConfig` (yaml tags `input`, `output`). -/
structure TailwindSection where
  Input : String
  Output : String
deriving DecidableEq, Repr

/-- The `GhostConfig` struct of `GhostConfig.go` (lines 11-27). -/
structure GhostConfig where
  Name : String
  Version : String
  Description : String
  Port : Int
  SurrealDB : SurrealSection
  TailwindCSS : TailwindSection
deriving DecidableEq, Repr

/-- The Go zero value `GhostConfig\x7b\x7d`: empty strings and zero integers. -/
def GhostConfig.zero : GhostConfig :=
  { Name := "", Version := "", Description := "", Port := 0
    SurrealDB := { URL := "", Username := "", Password := "", Database := "", Namespace := "" }
    TailwindCSS := { Input := "", Output := "" } }

/-- YAML values as far as this struct's decoding observes them:
string scalars, integer scalars, and mappings. -/
inductive YamlVal where
  | str (s : String)
  | int (n : Int)
  | map (es : List (String × YamlVal))

/-- First binding of a key in a YAML mapping. -/
def lookupY (k : String) : List (String × YamlVal) → Option YamlVal
  | [] => none
  | (k2, v) :: rest => if k2 = k then some v else lookupY k rest

/-- Decoding one string-typed struct field from an optional YAML value:
an absent key leaves the Go zero value `""`, a string scalar is taken as is,
any other value is a yaml.v3 type error. -/
def decStr : Option YamlVal → Except Unit String
  | none => .ok ""
  | some (.str s) => .ok s
  | some _ => .error ()

/-- Decoding one int-typed struct field: absent key gives `0`, an integer
scalar is taken as is, anything else is a type error. -/
def decInt : Option YamlVal → Except Unit Int
  | none => .ok 0
  | some (.int n) => .ok n
  | some _ => .error ()

/-- Decoding the `surrealdb` section: absent key leaves the zero-valued
section; a mapping is decoded field by field by its yaml tags; a scalar in
place of the mapping is a type error. -/
def decodeSurrealSection : Option YamlVal → Except Unit SurrealSection
  | none => .ok { URL := "", Username := "", Password := "", Database := "", Namespace := "" }
  | some (.map es) => do
      let url ← decStr (lookupY "surrealdb-url" es)
      let user ← decStr (lookupY "surrealdb-username" es)
      let pass ← decStr (lookupY "surrealdb-password" es)
      let dbn ← decStr (lookupY "surrealdb-database" es)
      let ns ← decStr (lookupY "surrealdb-namespace" es)
      .ok { URL := url, Username := user, Password := pass, Database := dbn, Namespace := ns }
  | some _ => .error ()

/-- Decoding the `tailwindcss` section, as for the `surrealdb` one. -/
def decodeTailwindSection : Option YamlVal → Except Unit TailwindSection
  | none => .ok { Input := "", Output := "" }
  | some (.map es) => do
      let inp ← decStr (lookupY "input" es)
      let out ← decStr (lookupY "output" es)
      .ok { Input := inp, Output := out }
  | some _ => .error ()

/-- `yaml.Unmarshal` of a YAML document into `GhostConfig`, per the struct's
yaml tags: a top-level mapping is decoded field by field (absent keys keep
zero values, unknown keys are ignored), a top-level scalar is a type error. -/
def ghostUnmarshal : YamlVal → Except Unit GhostConfig
  | .map es => do
      let name ← decStr (lookupY "name" es)
      let ver ← decStr (lookupY "version" es)
      let desc ← decStr (lookupY "description" es)
      let port ← decInt (lookupY "port" es)
      let sdb ← decodeSurrealSection (lookupY "surrealdb" es)
      let tw ← decodeTailwindSection (lookupY "tailwindcss" es)
      .ok { Name := name, Version := ver, Description := desc, Port := port
            SurrealDB := sdb, TailwindCSS := tw }
  | _ => .error ()

/-- Contents of one file: either bytes that `yaml.Unmarshal` rejects
(invalid YAML syntax), or a parsed YAML document. -/
inductive FileContent where
  | malformed
  | doc (v : YamlVal)

/-- A file system: `none` at a path means `ioutil.ReadFile` fails there
(missing file or permission denied). -/
def FS := String → Option FileContent

/-- The error taxonomy of the loader: `readError` is the error returned by
`ioutil.ReadFile`, `parseError` the one returned by `yaml.Unmarshal`. -/
inductive LoadError where
  | readError
  | parseError
deriving DecidableEq, Repr

/-- `NewFromPath` (GhostConfig.go lines 73-85): read the file at `path`,
returning the read error with the zero config on failure; unmarshal the
bytes, returning the parse error on failure; otherwise return the decoded
config and no error. -/
def NewFromPath (fs : FS) (path : String) : GhostConfig × Option LoadError :=
  let ghostConfig := GhostConfig.zero
  match fs path with
  | none => (ghostConfig, some .readError)
  | some .malformed => (ghostConfig, some .parseError)
  | some (.doc v) =>
      match ghostUnmarshal v with
      | .error _ => (ghostConfig, some .parseError)
      | .ok c => (c, none)

/-- `New` (GhostConfig.go lines 42-55): same body as `NewFromPath`, with the
path fixed to the default `./ghost.yaml`. -/
def New (fs : FS) : GhostConfig × Option LoadError :=
  let ghostConfig := GhostConfig.zero
  match fs "./ghost.yaml" with
  | none => (ghostConfig, some .readError)
  | some .malformed => (ghostConfig, some .parseError)
  | some (.doc v) =>
      match ghostUnmarshal v with
      | .error _ => (ghostConfig, some .parseError)
      | .ok c => (c, none)

/-- Observable effects `Setup` performs against the database client and the
gin engine, in order of emission. -/
inductive Event where
  | connect (url : String)
  | signin (db : Nat) (creds : List (String × String))
  | use (db : Nat) (ns dbName : String)
  | loadHTMLGlob (pattern : String)
  | static (relativePath root : String)
deriving DecidableEq, Repr

/-- The error taxonomy of `Setup`: `connectionError` is the error returned
by `surrealdb.New`, `authError` the one returned by `db.Signin`,
`selectionError` the one returned by `db.Use`. -/
inductive SetupError where
  | connectionError
  | authError
  | selectionError
deriving DecidableEq, Repr

/-- The remote side as the code observes it: `connect` is `surrealdb.New`
(`none` = unreachable, `some d` = the opened handle), `signinOk` whether
`db.Signin` accepts the credential object, `useOk` whether `db.Use` accepts
the namespace/database pair. -/
structure World where
  connect : String → Option Nat
  signinOk : Nat → List (String × String) → Bool
  useOk : Nat → String → String → Bool

/-- `GhostConfig.signinObj` (lines 218-223): the two-entry credential map
passed to `db.Signin`. -/
def GhostConfig.signinObj (c : GhostConfig) : List (String × String) :=
  [("user", c.SurrealDB.Username), ("pass", c.SurrealDB.Password)]

/-- `GhostConfig.surrealSetup` (lines 225-243): connect to the configured
URL, sign in with `signinObj`, select namespace and database; each step runs
only if the previous one succeeded, and on failure the handle obtained so
far is returned together with the step's error. The second component is the
trace of calls made against the database client. -/
def GhostConfig.surrealSetup (c : GhostConfig) (w : World) :
    (Option Nat × Option SetupError) × List Event :=
  match w.connect c.SurrealDB.URL with
  | none => ((none, some .connectionError), [.connect c.SurrealDB.URL])
  | some db =>
      if w.signinOk db c.signinObj then
        if w.useOk db c.SurrealDB.Namespace c.SurrealDB.Database then
          ((some db, none),
            [.connect c.SurrealDB.URL, .signin db c.signinObj,
             .use db c.SurrealDB.Namespace c.SurrealDB.Database])
        else
          ((some db, some .selectionError),
            [.connect c.SurrealDB.URL, .signin db c.signinObj,
             .use db c.SurrealDB.Namespace c.SurrealDB.Database])
      else
        ((some db, some .authError),
          [.connect c.SurrealDB.URL, .signin db c.signinObj])

/-- `GhostConfig.Setup` (lines 207-215): run `surrealSetup`; on error return
its handle and error unchanged; on success additionally register the
template glob and the static directory on the gin engine and return the
handle with no error. -/
def GhostConfig.Setup (c : GhostConfig) (w : World) :
    (Option Nat × Option SetupError) × List Event :=
  match c.surrealSetup w with
  | ((db, some e), tr) => ((db, some e), tr)
  | ((db, none), tr) =>
      ((db, none),
        tr ++ [.loadHTMLGlob "./src/views/**/*", .static "/static" "./static"])

/-- The gin engine's router-group allocator: `group` models
`rg.Group(path)`, which always allocates a fresh subgroup under the parent
and returns a (non-nil) pointer to it. Groups are identified by allocation
order; `groups` records `(id, parent id, relative path)`. -/
structure GinState where
  nextId : Nat
  groups : List (Nat × Nat × String)
deriving DecidableEq, Repr

def GinState.group (st : GinState) (parent : Nat) (path : String) : Nat × GinState :=
  (st.nextId, { nextId := st.nextId + 1, groups := st.groups ++ [(st.nextId, parent, path)] })

/-- The `BasicRoute` struct (GhostConfig.go lines 94-98). The two pointer
fields (`\x2asurrealdb.DB` and `\x2agin.RouterGroup`) are modelled as
`Option Nat` handles, `none` standing for a nil pointer. -/
structure BasicRoute where
  db : Option Nat
  RouteGroup : Option Nat
  Path : String
deriving DecidableEq, Repr

/-- `BasicRoute.New` (lines 118-124): builds a fresh route from `path` and
`db`, with `RouteGroup` nil; the (value) receiver is not read. -/
def BasicRoute.New (basicRoute : BasicRoute) (path : String) (db : Option Nat) : BasicRoute :=
  let _ := basicRoute
  { db := db, Path := path, RouteGroup := none }

/-- `BasicRoute.DB` (lines 140-142). -/
def BasicRoute.DB (basicRoute : BasicRoute) : Option Nat :=
  basicRoute.db

/-- `BasicRoute.RG` (lines 182-184). -/
def BasicRoute.RG (basicRoute : BasicRoute) : Option Nat :=
  basicRoute.RouteGroup

/-- `BasicRoute.Route` (lines 159-162): `basic := rg.Group(basicRoute.Path)`
followed by `basicRoute.RouteGroup = basic`. The receiver is a value
receiver, so that assignment lands on the method's local copy of the
struct, which Go discards when the method returns: the caller observes only
the gin engine's new state. -/
def BasicRoute.Route (basicRoute : BasicRoute) (rg : Nat) (st : GinState) : GinState :=
  let basic := st.group rg basicRoute.Path
  let _ := { basicRoute with RouteGroup := some basic.1 }
  basic.2

/-- A world in which the database endpoint is unreachable. -/
def wDown : World :=
  { connect := fun _ => none, signinOk := fun _ _ => false, useOk := fun _ _ _ => false }

/-- A world in which every remote step succeeds, handing out handle `0`. -/
def wUp : World :=
  { connect := fun _ => some 0, signinOk := fun _ _ => true, useOk := fun _ _ _ => true }

/-- A world in which connection succeeds but the credentials are rejected. -/
def wBadAuth : World :=
  { connect := fun _ => some 0, signinOk := fun _ _ => false, useOk := fun _ _ _ => false }

/-- The spec's demo configuration, with the remaining fields filled in. -/
def cDemo : GhostConfig :=
  { Name := "demo", Version := "0.1.0", Description := "a demo project", Port := 8080
    SurrealDB := { URL := "ws://localhost:8000", Username := "root", Password := "root"
                   Database := "test", Namespace := "test" }
    TailwindCSS := { Input := "./css/in.css", Output := "./css/out.css" } }

/-- `cDemo` with every field outside the `SurrealDB` section changed. -/
def cDemoAlt : GhostConfig :=
  { Name := "other", Version := "9.9.9", Description := "another project", Port := 1234
    SurrealDB := cDemo.SurrealDB
    TailwindCSS := { Input := "in2.css", Output := "out2.css" } }

/-- An engine state holding only the root group `0` (gin's `r.Group` root),
with id `1` the next to be allocated. -/
def st0 : GinState := { nextId := 1, groups := [] }

/-- C8: `New()` is extensionally equal to `NewFromPath("./ghost.yaml")`: on
every file system both return the same configuration and the same error. -/
theorem new_is_newFromPath_default (fs : FS) :
    New fs = NewFromPath fs "./ghost.yaml" :=
  rfl

/-- C9: `BasicRoute.New(path, db)` returns a route whose `DB()` is exactly
`db`, whose `Path` is exactly `path`, and whose router group is nil; the
result does not depend on the receiver's state. -/
theorem basicRoute_new_fresh (r : BasicRoute) (path : String) (db : Option Nat) :
    (r.New path db).DB = db ∧ (r.New path db).Path = path ∧
    (r.New path db).RG = none ∧ ∀ r2 : BasicRoute, r.New path db = r2.New path db :=
  ⟨rfl, rfl, rfl, fun _ => rfl⟩

/-- C5 (bug exhibit): `Route` does create the subgroup on the engine, but
because the receiver is a value receiver the assignment
`basicRoute.RouteGroup = basic` lands on a discarded copy, so `RG()` on the
registered instance still returns nil. -/
theorem basicRoute_route_drops_group :
    ((BasicRoute.New { db := none, RouteGroup := none, Path := "" } "/basic" (some 0)).Route
        0 st0).groups = st0.groups ++ [(1, 0, "/basic")] ∧
    (BasicRoute.New { db := none, RouteGroup := none, Path := "" } "/basic" (some 0)).RG
      = none :=
  ⟨rfl, rfl⟩

/-- C10: `Setup`'s whole outcome (handle, error, and the full trace of
remote calls and engine registrations) depends only on the `SurrealDB`
section of the configuration. -/
theorem setup_depends_only_on_surrealdb (w : World) (c1 c2 : GhostConfig)
    (h : c1.SurrealDB = c2.SurrealDB) : c1.Setup w = c2.Setup w := by
  unfold GhostConfig.Setup GhostConfig.surrealSetup GhostConfig.signinObj
  rw [h]

/-- Witness for C10: the demo configuration and a variant differing in
`Name`, `Version`, `Description`, `Port` and both TailwindCSS fields
produce identical `Setup` behaviour. -/
theorem setup_depends_only_on_surrealdb_witness :
    cDemo.Setup wUp = cDemoAlt.Setup wUp :=
  setup_depends_only_on_surrealdb wUp cDemo cDemoAlt rfl

/-- C3: when the file cannot be read the loader returns the read error with
the zero-valued configuration; when the content is rejected by the YAML
unmarshaller — malformed bytes or a document of the wrong shape — it
returns the parse error. Errors are returned as values to the caller. -/
theorem load_errors (fs : FS) (path : String) :
    (fs path = none → NewFromPath fs path = (GhostConfig.zero, some LoadError.readError)) ∧
    (fs path = some FileContent.malformed →
      NewFromPath fs path = (GhostConfig.zero, some LoadError.parseError)) ∧
    (∀ v, fs path = some (FileContent.doc v) → ghostUnmarshal v = Except.error () →
      NewFromPath fs path = (GhostConfig.zero, some LoadError.parseError)) := by
  refine ⟨fun h => ?_, fun h => ?_, fun v h hv => ?_⟩
  · simp [NewFromPath, h]
  · simp [NewFromPath, h]
  · simp [NewFromPath, h, hv]

/-- A file system missing the default file, with malformed bytes at one
path and a wrong-shaped (top-level scalar) document at every other path. -/
def fsProbe : FS := fun p =>
  if p = "./ghost.yaml" then none
  else if p = "./bad.yaml" then some FileContent.malformed
  else some (FileContent.doc (YamlVal.int 3))

/-- Witness for C3: the three failure modes on `fsProbe`. -/
theorem load_errors_witness :
    NewFromPath fsProbe "./ghost.yaml" = (GhostConfig.zero, some LoadError.readError) ∧
    NewFromPath fsProbe "./bad.yaml" = (GhostConfig.zero, some LoadError.parseError) ∧
    NewFromPath fsProbe "./scalar.yaml" = (GhostConfig.zero, some LoadError.parseError) :=
  ⟨(load_errors fsProbe "./ghost.yaml").1 rfl,
   (load_errors fsProbe "./bad.yaml").2.1 rfl,
   (load_errors fsProbe "./scalar.yaml").2.2 (YamlVal.int 3) rfl rfl⟩

/-- A YAML document populating every field of the expected shape. -/
def fullDoc (name ver desc : String) (port : Int)
    (url user pass dbn ns inp out : String) : YamlVal :=
  .map [("name", .str name), ("version", .str ver), ("description", .str desc),
        ("port", .int port),
        ("surrealdb", .map [("surrealdb-url", .str url), ("surrealdb-username", .str user),
                            ("surrealdb-password", .str pass), ("surrealdb-database", .str dbn),
                            ("surrealdb-namespace", .str ns)]),
        ("tailwindcss", .map [("input", .str inp), ("output", .str out)])]

/-- C1: loading a well-formed document populating every field, via
`NewFromPath` or via `New`, yields the configuration whose fields are
exactly the document's values, with no error. -/
theorem load_roundtrip (fs : FS) (path name ver desc : String) (port : Int)
    (url user pass dbn ns inp out : String) :
    (fs path = some (FileContent.doc (fullDoc name ver desc port url user pass dbn ns inp out)) →
      NewFromPath fs path =
        ({ Name := name, Version := ver, Description := desc, Port := port
           SurrealDB := { URL := url, Username := user, Password := pass
                          Database := dbn, Namespace := ns }
           TailwindCSS := { Input := inp, Output := out } }, none)) ∧
    (fs "./ghost.yaml"
        = some (FileContent.doc (fullDoc name ver desc port url user pass dbn ns inp out)) →
      New fs =
        ({ Name := name, Version := ver, Description := desc, Port := port
           SurrealDB := { URL := url, Username := user, Password := pass
                          Database := dbn, Namespace := ns }
           TailwindCSS := { Input := inp, Output := out } }, none)) := by
  constructor
  · intro h
    simp [NewFromPath, h, fullDoc, ghostUnmarshal, lookupY, decStr, decInt,
          decodeSurrealSection, decodeTailwindSection]
    rfl
  · intro h
    simp [New, h, fullDoc, ghostUnmarshal, lookupY, decStr, decInt,
          decodeSurrealSection, decodeTailwindSection]
    rfl

/-- The spec's example document: `name: demo`, `port: 8080` and the five
surrealdb sub-keys, with the remaining expected fields also present. -/
def demoDoc : YamlVal :=
  fullDoc "demo" "0.1.0" "a demo project" 8080
    "ws://localhost:8000" "root" "root" "test" "test" "./css/in.css" "./css/out.css"

/-- A file system serving `demoDoc` both at the default path and at an
explicit fixture path. -/
def fsDemo : FS := fun _ => some (FileContent.doc demoDoc)

/-- Witness for C1: on the example document, both loaders return `cDemo`,
with `Name = "demo"`, `Port = 8080` and the five surrealdb sub-fields
matching the document. -/
theorem load_roundtrip_witness :
    NewFromPath fsDemo "./ghost.testing.yaml" = (cDemo, none) ∧ New fsDemo = (cDemo, none) :=
  ⟨(load_roundtrip fsDemo "./ghost.testing.yaml" "demo" "0.1.0" "a demo project" 8080
      "ws://localhost:8000" "root" "root" "test" "test" "./css/in.css" "./css/out.css").1 rfl,
   (load_roundtrip fsDemo "./ghost.testing.yaml" "demo" "0.1.0" "a demo project" 8080
      "ws://localhost:8000" "root" "root" "test" "test" "./css/in.css" "./css/out.css").2 rfl⟩

/-- Case analysis of `surrealSetup`: exactly one of the four outcomes
happens, and in each one the trace is the corresponding prefix of the
connect / signin / use sequence, each step appearing once. -/
theorem surrealSetup_cases (c : GhostConfig) (w : World) :
    (w.connect c.SurrealDB.URL = none ∧
      c.surrealSetup w = ((none, some SetupError.connectionError),
        [Event.connect c.SurrealDB.URL])) ∨
    (∃ d, w.connect c.SurrealDB.URL = some d ∧ w.signinOk d c.signinObj = false ∧
      c.surrealSetup w = ((some d, some SetupError.authError),
        [Event.connect c.SurrealDB.URL, Event.signin d c.signinObj])) ∨
    (∃ d, w.connect c.SurrealDB.URL = some d ∧ w.signinOk d c.signinObj = true ∧
      w.useOk d c.SurrealDB.Namespace c.SurrealDB.Database = false ∧
      c.surrealSetup w = ((some d, some SetupError.selectionError),
        [Event.connect c.SurrealDB.URL, Event.signin d c.signinObj,
         Event.use d c.SurrealDB.Namespace c.SurrealDB.Database])) ∨
    (∃ d, w.connect c.SurrealDB.URL = some d ∧ w.signinOk d c.signinObj = true ∧
      w.useOk d c.SurrealDB.Namespace c.SurrealDB.Database = true ∧
      c.surrealSetup w = ((some d, none),
        [Event.connect c.SurrealDB.URL, Event.signin d c.signinObj,
         Event.use d c.SurrealDB.Namespace c.SurrealDB.Database])) := by
  cases hc : w.connect c.SurrealDB.URL with
  | none => exact Or.inl ⟨rfl, by simp [GhostConfig.surrealSetup, hc]⟩
  | some d =>
    cases hs : w.signinOk d c.signinObj with
    | false =>
      exact Or.inr (Or.inl ⟨d, rfl, hs, by simp [GhostConfig.surrealSetup, hc, hs]⟩)
    | true =>
      cases hu : w.useOk d c.SurrealDB.Namespace c.SurrealDB.Database with
      | false =>
        exact Or.inr (Or.inr (Or.inl
          ⟨d, rfl, hs, hu, by simp [GhostConfig.surrealSetup, hc, hs, hu]⟩))
      | true =>
        exact Or.inr (Or.inr (Or.inr
          ⟨d, rfl, hs, hu, by simp [GhostConfig.surrealSetup, hc, hs, hu]⟩))

/-- C2: the remote steps run in the fixed order connect, sign in, select,
each at most once; the first failing step's error is returned immediately,
together with whatever handle connect produced, and the later steps do not
run; and whenever `surrealSetup` fails, `Setup` returns its handle and
error unchanged — in particular the trace gains no template-glob or
static-directory registration. -/
theorem setup_fail_fast (w : World) (c : GhostConfig) :
    ((w.connect c.SurrealDB.URL = none ∧
      c.surrealSetup w = ((none, some SetupError.connectionError),
        [Event.connect c.SurrealDB.URL])) ∨
    (∃ d, w.connect c.SurrealDB.URL = some d ∧ w.signinOk d c.signinObj = false ∧
      c.surrealSetup w = ((some d, some SetupError.authError),
        [Event.connect c.SurrealDB.URL, Event.signin d c.signinObj])) ∨
    (∃ d, w.connect c.SurrealDB.URL = some d ∧ w.signinOk d c.signinObj = true ∧
      w.useOk d c.SurrealDB.Namespace c.SurrealDB.Database = false ∧
      c.surrealSetup w = ((some d, some SetupError.selectionError),
        [Event.connect c.SurrealDB.URL, Event.signin d c.signinObj,
         Event.use d c.SurrealDB.Namespace c.SurrealDB.Database])) ∨
    (∃ d, w.connect c.SurrealDB.URL = some d ∧ w.signinOk d c.signinObj = true ∧
      w.useOk d c.SurrealDB.Namespace c.SurrealDB.Database = true ∧
      c.surrealSetup w = ((some d, none),
        [Event.connect c.SurrealDB.URL, Event.signin d c.signinObj,
         Event.use d c.SurrealDB.Namespace c.SurrealDB.Database]))) ∧
    (∀ p e tr, c.surrealSetup w = ((p, some e), tr) → c.Setup w = ((p, some e), tr)) := by
  refine ⟨surrealSetup_cases c w, fun p e tr h => ?_⟩
  unfold GhostConfig.Setup
  rw [h]

/-- Witness for C2: with the endpoint down, `Setup` on the demo
configuration returns no handle and the connection error, after the
connect attempt alone. -/
theorem setup_fail_fast_witness :
    cDemo.Setup wDown = ((none, some SetupError.connectionError),
      [Event.connect "ws://localhost:8000"]) :=
  (setup_fail_fast wDown cDemo).2 none SetupError.connectionError
    [Event.connect "ws://localhost:8000"] rfl

/-- C6: the credential object is exactly the two-entry map built from the
configuration's username and password, and every sign-in call `Setup`
performs passes exactly that object. -/
theorem signin_credentials (w : World) (c : GhostConfig) :
    c.signinObj = [("user", c.SurrealDB.Username), ("pass", c.SurrealDB.Password)] ∧
    (∀ d args, Event.signin d args ∈ (c.Setup w).2 → args = c.signinObj) := by
  refine ⟨rfl, fun d args hmem => ?_⟩
  rcases surrealSetup_cases c w with ⟨hc, hr⟩ | ⟨d2, hc, hs, hr⟩ |
    ⟨d2, hc, hs, hu, hr⟩ | ⟨d2, hc, hs, hu, hr⟩ <;>
    unfold GhostConfig.Setup at hmem <;> rw [hr] at hmem <;> simp at hmem
  · exact hmem.2
  · exact hmem.2
  · exact hmem.2

/-- Witness for C6: in the all-success world, the sign-in call recorded in
the demo trace carries exactly the user/pass map. -/
theorem signin_credentials_witness :
    ([("user", "root"), ("pass", "root")] : List (String × String)) = cDemo.signinObj :=
  (signin_credentials wUp cDemo).2 0 [("user", "root"), ("pass", "root")] (by decide)

/-- `cDemo` with both TailwindCSS (asset-pipeline) fields changed. -/
def cDemoTw : GhostConfig :=
  { cDemo with TailwindCSS := { Input := "elsewhere/in.css", Output := "elsewhere/out.css" } }

/-- Counterexample to C4: on a successful run the registered glob and
directory are the constants `./src/views/**/*` and `./static`, which equal
no field of the loaded configuration; two configurations differing in the
asset-pipeline (and every other non-database) field produce the very same
registrations, so the registered paths are not "as given in the loaded
ProjectConfig". -/
theorem setup_paths_not_from_config :
    cDemo.Setup wUp =
      ((some 0, none),
       [Event.connect "ws://localhost:8000",
        Event.signin 0 [("user", "root"), ("pass", "root")],
        Event.use 0 "test" "test",
        Event.loadHTMLGlob "./src/views/**/*", Event.static "/static" "./static"]) ∧
    cDemo.TailwindCSS.Input ≠ "./src/views/**/*" ∧
    cDemo.TailwindCSS.Output ≠ "./src/views/**/*" ∧
    cDemo.TailwindCSS.Input ≠ "./static" ∧
    cDemo.TailwindCSS.Output ≠ "./static" ∧
    cDemo.TailwindCSS ≠ cDemoTw.TailwindCSS ∧
    cDemo.Setup wUp = cDemoTw.Setup wUp := by
  refine ⟨rfl, by decide, by decide, by decide, by decide, by decide, rfl⟩

/-- C4 as amended: when all database steps succeed, `Setup` additionally
registers the fixed template glob `./src/views/**/*` and the fixed static
directory `./static` under the URL path `/static` on the HTTP engine, in
that order, and returns the handle with no error. -/
theorem setup_registers_fixed_paths (w : World) (c : GhostConfig)
    (h : (c.surrealSetup w).1.2 = none) :
    c.Setup w = ((c.surrealSetup w).1,
      (c.surrealSetup w).2 ++
        [Event.loadHTMLGlob "./src/views/**/*", Event.static "/static" "./static"]) := by
  unfold GhostConfig.Setup
  rcases hr : c.surrealSetup w with ⟨⟨db, err⟩, tr⟩
  rw [hr] at h
  cases err with
  | none => simp
  | some e => simp at h

/-- Witness for the amended C4: the all-success world on the demo
configuration, where the two registrations follow the three database
steps. -/
theorem setup_registers_fixed_paths_witness :
    cDemo.Setup wUp = ((cDemo.surrealSetup wUp).1,
      (cDemo.surrealSetup wUp).2 ++
        [Event.loadHTMLGlob "./src/views/**/*", Event.static "/static" "./static"]) :=
  setup_registers_fixed_paths wUp cDemo rfl

/-- The string a document binds to key `k`, or the zero value `""`. -/
def strD (es : List (String × YamlVal)) (k : String) : String :=
  match lookupY k es with
  | some (.str s) => s
  | _ => ""

/-- The integer a document binds to key `k`, or the zero value `0`. -/
def intD (es : List (String × YamlVal)) (k : String) : Int :=
  match lookupY k es with
  | some (.int n) => n
  | _ => 0

/-- The sub-mapping a document binds to key `k`, or the empty mapping. -/
def subEntries (es : List (String × YamlVal)) (k : String) : List (String × YamlVal) :=
  match lookupY k es with
  | some (.map es2) => es2
  | _ => []

/-- Key `k` is absent or bound to a string scalar. -/
def strShaped (es : List (String × YamlVal)) (k : String) : Prop :=
  ∀ v, lookupY k es = some v → ∃ s, v = YamlVal.str s

/-- Key `k` is absent or bound to an integer scalar. -/
def intShaped (es : List (String × YamlVal)) (k : String) : Prop :=
  ∀ v, lookupY k es = some v → ∃ n, v = YamlVal.int n

/-- Key `k` is absent or bound to a mapping. -/
def mapShaped (es : List (String × YamlVal)) (k : String) : Prop :=
  ∀ v, lookupY k es = some v → ∃ es2, v = YamlVal.map es2

theorem decStr_shaped (es : List (String × YamlVal)) (k : String) (h : strShaped es k) :
    decStr (lookupY k es) = .ok (strD es k) := by
  rcases hl : lookupY k es with _ | v
  · simp [decStr, strD, hl]
  · obtain ⟨s, rfl⟩ := h v hl
    simp [decStr, strD, hl]

theorem decInt_shaped (es : List (String × YamlVal)) (k : String) (h : intShaped es k) :
    decInt (lookupY k es) = .ok (intD es k) := by
  rcases hl : lookupY k es with _ | v
  · simp [decInt, intD, hl]
  · obtain ⟨n, rfl⟩ := h v hl
    simp [decInt, intD, hl]

theorem decodeSurrealSection_shaped (es : List (String × YamlVal))
    (hm : mapShaped es "surrealdb")
    (hurl : strShaped (subEntries es "surrealdb") "surrealdb-url")
    (huser : strShaped (subEntries es "surrealdb") "surrealdb-username")
    (hpass : strShaped (subEntries es "surrealdb") "surrealdb-password")
    (hdbn : strShaped (subEntries es "surrealdb") "surrealdb-database")
    (hns : strShaped (subEntries es "surrealdb") "surrealdb-namespace") :
    decodeSurrealSection (lookupY "surrealdb" es) =
      .ok { URL := strD (subEntries es "surrealdb") "surrealdb-url"
            Username := strD (subEntries es "surrealdb") "surrealdb-username"
            Password := strD (subEntries es "surrealdb") "surrealdb-password"
            Database := strD (subEntries es "surrealdb") "surrealdb-database"
            Namespace := strD (subEntries es "surrealdb") "surrealdb-namespace" } := by
  rcases hl : lookupY "surrealdb" es with _ | v
  · have he : subEntries es "surrealdb" = [] := by simp [subEntries, hl]
    rw [he] at hurl huser hpass hdbn hns ⊢
    simp [decodeSurrealSection, hl, strD, lookupY]
  · obtain ⟨es2, rfl⟩ := hm v hl
    have he : subEntries es "surrealdb" = es2 := by simp [subEntries, hl]
    rw [he] at hurl huser hpass hdbn hns ⊢
    simp [decodeSurrealSection, hl, decStr_shaped es2 _ hurl, decStr_shaped es2 _ huser,
          decStr_shaped es2 _ hpass, decStr_shaped es2 _ hdbn, decStr_shaped es2 _ hns]
    rfl

theorem decodeTailwindSection_shaped (es : List (String × YamlVal))
    (hm : mapShaped es "tailwindcss")
    (hin : strShaped (subEntries es "tailwindcss") "input")
    (hout : strShaped (subEntries es "tailwindcss") "output") :
    decodeTailwindSection (lookupY "tailwindcss" es) =
      .ok { Input := strD (subEntries es "tailwindcss") "input"
            Output := strD (subEntries es "tailwindcss") "output" } := by
  rcases hl : lookupY "tailwindcss" es with _ | v
  · have he : subEntries es "tailwindcss" = [] := by simp [subEntries, hl]
    rw [he] at hin hout ⊢
    simp [decodeTailwindSection, hl, strD, lookupY]
  · obtain ⟨es2, rfl⟩ := hm v hl
    have he : subEntries es "tailwindcss" = es2 := by simp [subEntries, hl]
    rw [he] at hin hout ⊢
    simp [decodeTailwindSection, hl, decStr_shaped es2 _ hin, decStr_shaped es2 _ hout]
    rfl

/-- C7: loading any document that binds a subset of the expected keys (each
present key bound to a value of the expected kind, any number of unknown
keys present) succeeds, with each present field set to the document's value
and each absent field at its zero value. -/
theorem load_subset (fs : FS) (path : String) (es : List (String × YamlVal))
    (h : fs path = some (FileContent.doc (YamlVal.map es)))
    (hname : strShaped es "name") (hver : strShaped es "version")
    (hdesc : strShaped es "description") (hport : intShaped es "port")
    (hsdb : mapShaped es "surrealdb")
    (hurl : strShaped (subEntries es "surrealdb") "surrealdb-url")
    (huser : strShaped (subEntries es "surrealdb") "surrealdb-username")
    (hpass : strShaped (subEntries es "surrealdb") "surrealdb-password")
    (hdbn : strShaped (subEntries es "surrealdb") "surrealdb-database")
    (hns : strShaped (subEntries es "surrealdb") "surrealdb-namespace")
    (htw : mapShaped es "tailwindcss")
    (hin : strShaped (subEntries es "tailwindcss") "input")
    (hout : strShaped (subEntries es "tailwindcss") "output") :
    NewFromPath fs path =
      ({ Name := strD es "name", Version := strD es "version"
         Description := strD es "description", Port := intD es "port"
         SurrealDB := { URL := strD (subEntries es "surrealdb") "surrealdb-url"
                        Username := strD (subEntries es "surrealdb") "surrealdb-username"
                        Password := strD (subEntries es "surrealdb") "surrealdb-password"
                        Database := strD (subEntries es "surrealdb") "surrealdb-database"
                        Namespace := strD (subEntries es "surrealdb") "surrealdb-namespace" }
         TailwindCSS := { Input := strD (subEntries es "tailwindcss") "input"
                          Output := strD (subEntries es "tailwindcss") "output" } }, none) := by
  simp [NewFromPath, h, ghostUnmarshal,
        decStr_shaped es "name" hname, decStr_shaped es "version" hver,
        decStr_shaped es "description" hdesc, decInt_shaped es "port" hport,
        decodeSurrealSection_shaped es hsdb hurl huser hpass hdbn hns,
        decodeTailwindSection_shaped es htw hin hout]
  rfl

/-- A document binding only `name` (plus an unknown key). -/
def partialEntries : List (String × YamlVal) :=
  [("name", YamlVal.str "only"), ("mystery", YamlVal.int 7)]

/-- A file system serving the partial document everywhere. -/
def fsPartial : FS := fun _ => some (FileContent.doc (YamlVal.map partialEntries))

/-- Witness for C7: the partial document loads with `Name = "only"`, every
other field at its zero value, and the unknown key ignored. -/
theorem load_subset_witness :
    NewFromPath fsPartial "./partial.yaml" =
      ({ GhostConfig.zero with Name := "only" }, none) :=
  load_subset fsPartial "./partial.yaml" partialEntries rfl
    (fun v hv => ⟨"only", by simp [partialEntries, lookupY] at hv; exact hv.symm⟩)
    (fun v hv => by simp [partialEntries, lookupY] at hv)
    (fun v hv => by simp [partialEntries, lookupY] at hv)
    (fun v hv => by simp [partialEntries, lookupY] at hv)
    (fun v hv => by simp [partialEntries, lookupY] at hv)
    (fun v hv => by simp [subEntries, partialEntries, lookupY] at hv)
    (fun v hv => by simp [subEntries, partialEntries, lookupY] at hv)
    (fun v hv => by simp [subEntries, partialEntries, lookupY] at hv)
    (fun v hv => by simp [subEntries, partialEntries, lookupY] at hv)
    (fun v hv => by simp [subEntries, partialEntries, lookupY] at hv)
    (fun v hv => by simp [partialEntries, lookupY] at hv)
    (fun v hv => by simp [subEntries, partialEntries, lookupY] at hv)
    (fun v hv => by simp [subEntries, partialEntries, lookupY] at hv)
